import Mathlib

/-!
Shallow embedding of `sdm::CoreImpl` (src/sdm/libs/core/core_impl.cpp).

External collaborators (extension library, `HWInfoInterface`,
`CompManager`, `ColorManagerProxy`, the concrete display classes) are out
of the translated unit; their observable results are supplied by an
environment record `Env`.  Pointer nullness of the caller-supplied
`event_handler` / `intf` output parameters is passed as explicit booleans,
and a write through the `intf` output parameter is modelled by the
`intf_written` field of `CreateResult` (`none` = the out parameter was
not written).  C++ plain `new` either returns a non-null pointer or
throws; it is therefore modelled by the total function `newDisplay`.
-/

namespace SDM

/-- Error codes of `DisplayError` used by `core_impl.cpp`; collaborator
errors other than the named ones are represented by `kErrorOther`. -/
inductive DisplayError where
  | kErrorNone
  | kErrorUndefined
  | kErrorParameters
  | kErrorMemory
  | kErrorOther (code : Nat)
deriving DecidableEq, Repr

open DisplayError

/-- Display types recognized by the `switch` statements; every enum value
outside the three named variants is represented by `kSpurious`. -/
inductive DisplayType where
  | kBuiltIn
  | kPluggable
  | kVirtual
  | kSpurious (value : Nat)
deriving DecidableEq, Repr

/-- Entry of `HWDisplaysInfo`: only the `display_type` field is read by
`core_impl.cpp`; `is_connected` stands for the rest of the record. -/
structure HWDisplayInfo where
  display_type : DisplayType
  is_connected : Bool
deriving DecidableEq, Repr

/-- `HWDisplaysInfo`: map from display id to display info, modelled as an
association list queried with `List.lookup` (`std::map::find`). -/
abbrev HWDisplaysInfo := List (Int × HWDisplayInfo)

/-- A constructed display object (`DisplayBuiltIn` / `DisplayPluggable` /
`DisplayVirtual`), recording its variant and the explicit display id when
constructed through the id-based overload. -/
structure DisplayBase where
  display_type : DisplayType
  display_id : Option Int
deriving DecidableEq, Repr

/-- Result of a `CreateDisplay` call: the returned error and what was
written through the `intf` output parameter (`none` = not written). -/
structure CreateResult where
  error : DisplayError
  intf_written : Option DisplayBase
deriving DecidableEq, Repr

/-- Observable behaviour of the external collaborators. -/
structure Env where
  /-- whether `extension_lib_.Open(EXTENSION_LIBRARY_NAME)` succeeds -/
  extension_open : Bool
  /-- whether `Sym(CREATE_EXTENSION_INTERFACE_NAME, ...)` resolves -/
  sym_create_ok : Bool
  /-- whether `Sym(DESTROY_EXTENSION_INTERFACE_NAME, ...)` resolves -/
  sym_destroy_ok : Bool
  /-- result of `create_extension_intf_(EXTENSION_VERSION_TAG, ...)` -/
  create_extension_result : DisplayError
  /-- result of `HWInfoInterface::Create(&hw_info_intf_)` -/
  hw_info_create_result : DisplayError
  /-- result of `hw_info_intf_->GetHWResourceInfo(&hw_resource_)` -/
  get_hw_resource_result : DisplayError
  /-- result of `comp_mgr_.Init(...)` -/
  comp_mgr_init_result : DisplayError
  /-- result of `ColorManagerProxy::Init(hw_resource_)` -/
  color_mgr_init_result : DisplayError
  /-- result of `hw_info_intf_->GetDisplaysStatus(...)` -/
  get_displays_status_result : DisplayError
  /-- snapshot written by `GetDisplaysStatus` when it succeeds -/
  displays_status : HWDisplaysInfo
  /-- result of `display_base->Init()` for a given constructed object,
  in the fully initialized core state -/
  display_init_result : DisplayBase → DisplayError
  /-- result of `display_base->Deinit()` -/
  display_deinit_result : DisplayBase → DisplayError
  /-- result of `comp_mgr_.SetMaxBandwidthMode(mode)` -/
  set_max_bandwidth_result : Nat → DisplayError
  /-- result of `hw_info_intf_->GetFirstDisplayInterfaceType(...)` -/
  get_first_display_intf_result : DisplayError
  /-- result of `hw_info_intf_->GetMaxDisplaysSupported(type, ...)` -/
  get_max_displays_result : DisplayType → DisplayError × Int
  /-- result of `comp_mgr_.IsRotatorSupportedFormat(format)` -/
  is_rotator_supported : Nat → Bool

/-- Member state of a `CoreImpl` instance relevant to the translated
functions.  `hw_info_intf_valid` is true while `hw_info_intf_` points to a
live (created, not destroyed) `HWInfoInterface`. -/
structure CoreImpl where
  hw_info_intf_valid : Bool
  comp_mgr_initialized : Bool
  extension_intf_present : Bool
  hw_displays_info_ : HWDisplaysInfo
deriving DecidableEq, Repr

/-- State of a freshly constructed `CoreImpl` (members default/null
initialized, snapshot map empty). -/
def initialCore : CoreImpl :=
  { hw_info_intf_valid := false
    comp_mgr_initialized := false
    extension_intf_present := false
    hw_displays_info_ := [] }

/-- The `CleanupOnError:` label of `CoreImpl::Init`: destroy
`hw_info_intf_` if it was created, return the triggering error. -/
def cleanupOnError (error : DisplayError) (c : CoreImpl) :
    DisplayError × CoreImpl :=
  if c.hw_info_intf_valid then
    (error, { c with hw_info_intf_valid := false })
  else
    (error, c)

/-- `CoreImpl::Init` after the extension-loading block: create the
hardware info provider, query resource info, init the composition
manager (fatal failures go to `cleanupOnError`), init the color manager
(failure only logged), populate `hw_displays_info_` once (failure only
logged), return `kErrorNone`. -/
def initCore (env : Env) (c : CoreImpl) : DisplayError × CoreImpl :=
  if env.hw_info_create_result ≠ kErrorNone then
    cleanupOnError env.hw_info_create_result c
  else
    let c := { c with hw_info_intf_valid := true }
    if env.get_hw_resource_result ≠ kErrorNone then
      cleanupOnError env.get_hw_resource_result c
    else if env.comp_mgr_init_result ≠ kErrorNone then
      cleanupOnError env.comp_mgr_init_result c
    else
      let c := { c with comp_mgr_initialized := true }
      -- `ColorManagerProxy::Init` failure does not affect core
      -- functionality: only a warning is logged.
      let _color_error := env.color_mgr_init_result
      -- Populate hw_displays_info_ once; failure only logged.
      let c :=
        if env.get_displays_status_result = kErrorNone then
          { c with hw_displays_info_ := env.displays_status }
        else c
      (kErrorNone, c)

/-- `CoreImpl::Init`: try to load the extension library; if it opens,
failure to resolve either symbol returns `kErrorUndefined` and a failing
`create_extension_intf_` call returns its error; if it does not open,
continue without an extension interface.  Then run the remaining init
sequence (`initCore`). -/
def CoreImpl.Init (env : Env) (c : CoreImpl) : DisplayError × CoreImpl :=
  if env.extension_open then
    if ¬(env.sym_create_ok && env.sym_destroy_ok) then
      (kErrorUndefined, c)
    else if env.create_extension_result ≠ kErrorNone then
      (env.create_extension_result, c)
    else
      initCore env { c with extension_intf_present := true }
  else
    initCore env c

/-- Construction of a display variant: C++ `new` either yields a non-null
object or throws out of the function, so the constructed object is total. -/
def newDisplay (display_type : DisplayType) (display_id : Option Int) :
    DisplayBase :=
  { display_type := display_type, display_id := display_id }

/-- Modelled from the spec: the constructed display object's own `Init`
(`DisplayBase::Init`, declared in display_base.h of this repository but
not part of the translated sources).  The spec states that after a fatal
`Init` failure the core is in an uninitialized state and "no display can
subsequently be created"; accordingly, when the hardware info provider or
the composition manager the object was constructed against is not live,
the object's `Init` fails (the concrete code returned in that branch is
arbitrary; theorems rely only on it being distinct from `kErrorNone`).
In the initialized state the result is collaborator-determined. -/
def displayInit (env : Env) (c : CoreImpl) (db : DisplayBase) : DisplayError :=
  if c.hw_info_intf_valid && c.comp_mgr_initialized then
    env.display_init_result db
  else
    kErrorUndefined

/-- Tail shared verbatim by both `CreateDisplay` overloads after the
`switch`: null-check the constructed pointer (`kErrorMemory`), call the
object's `Init`, on failure delete the object and return its error, on
success write the object through the output parameter. -/
def finishCreate (env : Env) (c : CoreImpl)
    (display_base : Option DisplayBase) : CreateResult :=
  match display_base with
  | none => { error := kErrorMemory, intf_written := none }
  | some db =>
    let error := displayInit env c db
    if error ≠ kErrorNone then
      { error := error, intf_written := none }
    else
      { error := kErrorNone, intf_written := some db }

/-- The `switch (display_type)` of both overloads: construct the matching
variant and run `finishCreate`; the `default` case returns
`kErrorParameters` directly. -/
def createForType (env : Env) (c : CoreImpl) (display_id : Option Int)
    (display_type : DisplayType) : CreateResult :=
  match display_type with
  | DisplayType.kBuiltIn =>
    finishCreate env c (some (newDisplay DisplayType.kBuiltIn display_id))
  | DisplayType.kPluggable =>
    finishCreate env c (some (newDisplay DisplayType.kPluggable display_id))
  | DisplayType.kVirtual =>
    finishCreate env c (some (newDisplay DisplayType.kVirtual display_id))
  | DisplayType.kSpurious _ => { error := kErrorParameters, intf_written := none }

/-- `CoreImpl::CreateDisplay(DisplayType, DisplayEventHandler *,
DisplayInterface **)`: null parameters fail with `kErrorParameters`,
otherwise dispatch on the requested type with no explicit display id. -/
def CoreImpl.CreateDisplayByType (env : Env) (c : CoreImpl)
    (type : DisplayType) (event_handler_null intf_null : Bool) :
    CreateResult × CoreImpl :=
  if event_handler_null || intf_null then
    ({ error := kErrorParameters, intf_written := none }, c)
  else
    (createForType env c none type, c)

/-- `CoreImpl::CreateDisplay(int32_t, DisplayEventHandler *,
DisplayInterface **)`: null parameters fail with `kErrorParameters`; the
display id is looked up in the cached `hw_displays_info_` snapshot and an
absent id fails with `kErrorParameters`; otherwise dispatch on the
associated type, threading the explicit id into the constructor. -/
def CoreImpl.CreateDisplayById (env : Env) (c : CoreImpl)
    (display_id : Int) (event_handler_null intf_null : Bool) :
    CreateResult × CoreImpl :=
  if event_handler_null || intf_null then
    ({ error := kErrorParameters, intf_written := none }, c)
  else
    match c.hw_displays_info_.lookup display_id with
    | none => ({ error := kErrorParameters, intf_written := none }, c)
    | some info => (createForType env c (some display_id) info.display_type, c)

/-- `CoreImpl::DestroyDisplay`: null handle fails with
`kErrorParameters`; otherwise the object's `Deinit` is invoked with its
result discarded, the object is deleted, and `kErrorNone` is returned. -/
def CoreImpl.DestroyDisplay (env : Env) (c : CoreImpl)
    (intf : Option DisplayBase) : DisplayError × CoreImpl :=
  match intf with
  | none => (kErrorParameters, c)
  | some display_base =>
    let _deinit_result := env.display_deinit_result display_base
    (kErrorNone, c)

/-- `CoreImpl::GetDisplaysStatus`: forward to the provider; on success the
snapshot is written to the caller and cached in `hw_displays_info_`;
a failed call changes nothing. -/
def CoreImpl.GetDisplaysStatus (env : Env) (c : CoreImpl) :
    (DisplayError × Option HWDisplaysInfo) × CoreImpl :=
  let error := env.get_displays_status_result
  if error = kErrorNone then
    ((error, some env.displays_status),
      { c with hw_displays_info_ := env.displays_status })
  else
    ((error, none), c)

/-- `CoreImpl::SetMaxBandwidthMode`: passthrough to `comp_mgr_`. -/
def CoreImpl.SetMaxBandwidthMode (env : Env) (c : CoreImpl) (mode : Nat) :
    DisplayError × CoreImpl :=
  (env.set_max_bandwidth_result mode, c)

/-- `CoreImpl::GetFirstDisplayInterfaceType`: passthrough to
`hw_info_intf_`. -/
def CoreImpl.GetFirstDisplayInterfaceType (env : Env) (c : CoreImpl) :
    DisplayError × CoreImpl :=
  (env.get_first_display_intf_result, c)

/-- `CoreImpl::GetMaxDisplaysSupported`: passthrough to `hw_info_intf_`. -/
def CoreImpl.GetMaxDisplaysSupported (env : Env) (c : CoreImpl)
    (type : DisplayType) : (DisplayError × Int) × CoreImpl :=
  (env.get_max_displays_result type, c)

/-- `CoreImpl::IsRotatorSupportedFormat`: passthrough to `comp_mgr_`. -/
def CoreImpl.IsRotatorSupportedFormat (env : Env) (c : CoreImpl)
    (format : Nat) : Bool × CoreImpl :=
  (env.is_rotator_supported format, c)

/-- The extension-loading step of `Init` did not abort: either the module
did not open, or both symbols resolved and the construct call succeeded. -/
def extensionStepOk (env : Env) : Prop :=
  env.extension_open = true →
    env.sym_create_ok = true ∧ env.sym_destroy_ok = true ∧
      env.create_extension_result = kErrorNone

instance (env : Env) : Decidable (extensionStepOk env) := by
  unfold extensionStepOk
  infer_instance

/-- A concrete environment in which every collaborator succeeds; used to
instantiate witness statements. -/
def envOk : Env :=
  { extension_open := false
    sym_create_ok := true
    sym_destroy_ok := true
    create_extension_result := kErrorNone
    hw_info_create_result := kErrorNone
    get_hw_resource_result := kErrorNone
    comp_mgr_init_result := kErrorNone
    color_mgr_init_result := kErrorNone
    get_displays_status_result := kErrorNone
    displays_status :=
      [((0 : Int), { display_type := DisplayType.kBuiltIn, is_connected := true }),
       ((1 : Int), { display_type := DisplayType.kPluggable, is_connected := true })]
    display_init_result := fun _ => kErrorNone
    display_deinit_result := fun _ => kErrorOther 3
    set_max_bandwidth_result := fun _ => kErrorNone
    get_first_display_intf_result := kErrorNone
    get_max_displays_result := fun _ => (kErrorNone, 1)
    is_rotator_supported := fun _ => true }

/-- A core state in which `Init` fully succeeded, with the cache holding
`envOk.displays_status`; used to instantiate witness statements. -/
def coreReady : CoreImpl :=
  { hw_info_intf_valid := true
    comp_mgr_initialized := true
    extension_intf_present := false
    hw_displays_info_ := envOk.displays_status }

/-!  Helper lemmas shared by several claim theorems.  -/

/-- `finishCreate` on a (necessarily non-null) constructed object returns
exactly the object's `Init` error on failure and the object on success. -/
lemma finishCreate_some (env : Env) (c : CoreImpl) (db : DisplayBase) :
    finishCreate env c (some db) =
      if displayInit env c db = kErrorNone then
        { error := kErrorNone, intf_written := some db }
      else
        { error := displayInit env c db, intf_written := none } := by
  unfold finishCreate
  by_cases h : displayInit env c db = kErrorNone <;> simp [h]

/-- Every result of the `switch`-and-construct part is the parameter
error (default case), success, or an error of the object's own `Init`. -/
lemma createForType_error_cases (env : Env) (c : CoreImpl)
    (oid : Option Int) (t : DisplayType) :
    (createForType env c oid t).error = kErrorParameters ∨
    (createForType env c oid t).error = kErrorNone ∨
    ∃ db, (createForType env c oid t).error = displayInit env c db := by
  cases t with
  | kSpurious v => exact Or.inl rfl
  | kBuiltIn =>
    by_cases h : displayInit env c (newDisplay DisplayType.kBuiltIn oid) = kErrorNone
    · exact Or.inr (Or.inl (by simp [createForType, finishCreate_some, h]))
    · exact Or.inr (Or.inr ⟨newDisplay DisplayType.kBuiltIn oid,
        by simp [createForType, finishCreate_some, h]⟩)
  | kPluggable =>
    by_cases h : displayInit env c (newDisplay DisplayType.kPluggable oid) = kErrorNone
    · exact Or.inr (Or.inl (by simp [createForType, finishCreate_some, h]))
    · exact Or.inr (Or.inr ⟨newDisplay DisplayType.kPluggable oid,
        by simp [createForType, finishCreate_some, h]⟩)
  | kVirtual =>
    by_cases h : displayInit env c (newDisplay DisplayType.kVirtual oid) = kErrorNone
    · exact Or.inr (Or.inl (by simp [createForType, finishCreate_some, h]))
    · exact Or.inr (Or.inr ⟨newDisplay DisplayType.kVirtual oid,
        by simp [createForType, finishCreate_some, h]⟩)

/-- The display object's own `Init` (`displayInit`) never reports
`kErrorMemory` unless the environment's display-init result does. -/
lemma displayInit_no_memory (env : Env) (c : CoreImpl) (db : DisplayBase)
    (hno : ∀ d, env.display_init_result d ≠ kErrorMemory) :
    displayInit env c db ≠ kErrorMemory := by
  unfold displayInit
  split
  · exact hno db
  · exact fun h => DisplayError.noConfusion h

/-- Under the same proviso, `createForType` never returns
`kErrorMemory`. -/
lemma createForType_no_memory (env : Env) (c : CoreImpl)
    (oid : Option Int) (t : DisplayType)
    (hno : ∀ d, env.display_init_result d ≠ kErrorMemory) :
    (createForType env c oid t).error ≠ kErrorMemory := by
  rcases createForType_error_cases env c oid t with h | h | ⟨db, h⟩ <;> rw [h]
  · exact fun hh => DisplayError.noConfusion hh
  · exact fun hh => DisplayError.noConfusion hh
  · exact displayInit_no_memory env c db hno

/-- In a state where the hardware info provider is not live,
`createForType` always fails and never writes an object. -/
lemma createForType_uninit (env : Env) (c : CoreImpl)
    (h : c.hw_info_intf_valid = false) (oid : Option Int) (t : DisplayType) :
    (createForType env c oid t).error ≠ kErrorNone ∧
    (createForType env c oid t).intf_written = none := by
  have hdi : ∀ db, displayInit env c db = kErrorUndefined := by
    intro db; simp [displayInit, h]
  cases t <;> simp [createForType, finishCreate_some, hdi]

/-- In a state where the hardware info provider is not live, the typed
`CreateDisplay` overload always fails and never writes an object. -/
lemma createDisplayByType_uninit (env : Env) (c : CoreImpl)
    (h : c.hw_info_intf_valid = false) (type : DisplayType)
    (ehn ifn : Bool) :
    (CoreImpl.CreateDisplayByType env c type ehn ifn).1.error ≠ kErrorNone ∧
    (CoreImpl.CreateDisplayByType env c type ehn ifn).1.intf_written = none := by
  unfold CoreImpl.CreateDisplayByType
  split
  · exact ⟨fun hh => DisplayError.noConfusion hh, rfl⟩
  · exact createForType_uninit env c h none type

/-- In a state where the hardware info provider is not live, the id-based
`CreateDisplay` overload always fails and never writes an object. -/
lemma createDisplayById_uninit (env : Env) (c : CoreImpl)
    (h : c.hw_info_intf_valid = false) (display_id : Int)
    (ehn ifn : Bool) :
    (CoreImpl.CreateDisplayById env c display_id ehn ifn).1.error ≠ kErrorNone ∧
    (CoreImpl.CreateDisplayById env c display_id ehn ifn).1.intf_written = none := by
  unfold CoreImpl.CreateDisplayById
  split
  · exact ⟨fun hh => DisplayError.noConfusion hh, rfl⟩
  · split
    · exact ⟨fun hh => DisplayError.noConfusion hh, rfl⟩
    · exact createForType_uninit env c h (some display_id) _

/-!  Claim theorems.  -/

/-- Claim C4: for every display id absent from the cached displays-status
snapshot, `CreateDisplay(id, handler, &out)` with non-null handler and
out fails with `kErrorParameters`; the result is the same for every
environment (the current hardware state is never consulted), no object is
constructed or written, and the component state is unchanged. -/
theorem c4_unknown_id_parameter_error (env : Env) (c : CoreImpl)
    (display_id : Int)
    (habs : c.hw_displays_info_.lookup display_id = none) :
    CoreImpl.CreateDisplayById env c display_id false false =
      ({ error := kErrorParameters, intf_written := none }, c) := by
  simp [CoreImpl.CreateDisplayById, habs]

/-- Witness for C4: on the freshly constructed core whose snapshot is
empty, creating display id 42 fails with the parameter error. -/
theorem c4_witness :
    CoreImpl.CreateDisplayById envOk initialCore 42 false false =
      ({ error := kErrorParameters, intf_written := none }, initialCore) :=
  c4_unknown_id_parameter_error envOk initialCore 42 rfl

/-- Claim C5: the typed `CreateDisplay` overload fails with
`kErrorParameters`, writes nothing, and leaves the component state
unchanged whenever the event handler is null, the output pointer is
null, or the type is outside the three recognized variants. -/
theorem c5_create_by_type_parameter_errors (env : Env) (c : CoreImpl)
    (type : DisplayType) (ehn ifn : Bool) (v : Nat)
    (h : ehn = true ∨ ifn = true ∨ type = DisplayType.kSpurious v) :
    CoreImpl.CreateDisplayByType env c type ehn ifn =
      ({ error := kErrorParameters, intf_written := none }, c) := by
  rcases h with h | h | h
  · simp [CoreImpl.CreateDisplayByType, h]
  · simp [CoreImpl.CreateDisplayByType, h]
  · subst h
    unfold CoreImpl.CreateDisplayByType
    split
    · rfl
    · simp [createForType]

/-- Witness for C5: a spurious display type value fails with the
parameter error on a fully initialized core. -/
theorem c5_witness :
    CoreImpl.CreateDisplayByType envOk coreReady (DisplayType.kSpurious 9)
        false false =
      ({ error := kErrorParameters, intf_written := none }, coreReady) :=
  c5_create_by_type_parameter_errors envOk coreReady (DisplayType.kSpurious 9)
    false false 9 (Or.inr (Or.inr rfl))

/-- Claim C8: the cached snapshot is replaced exactly by a successful
`GetDisplaysStatus` call; a failed `GetDisplaysStatus` call and every
other public operation (both `CreateDisplay` overloads, `DestroyDisplay`,
and the passthrough queries) leave the component state, hence the cache,
unchanged. -/
theorem c8_cache_update_policy (env : Env) (c : CoreImpl)
    (type : DisplayType) (display_id : Int) (ehn ifn : Bool)
    (intf : Option DisplayBase) (mode format : Nat) :
    (env.get_displays_status_result = kErrorNone →
      (CoreImpl.GetDisplaysStatus env c).2 =
        { c with hw_displays_info_ := env.displays_status }) ∧
    (env.get_displays_status_result ≠ kErrorNone →
      (CoreImpl.GetDisplaysStatus env c).2 = c) ∧
    (CoreImpl.CreateDisplayByType env c type ehn ifn).2 = c ∧
    (CoreImpl.CreateDisplayById env c display_id ehn ifn).2 = c ∧
    (CoreImpl.DestroyDisplay env c intf).2 = c ∧
    (CoreImpl.SetMaxBandwidthMode env c mode).2 = c ∧
    (CoreImpl.GetFirstDisplayInterfaceType env c).2 = c ∧
    (CoreImpl.GetMaxDisplaysSupported env c type).2 = c ∧
    (CoreImpl.IsRotatorSupportedFormat env c format).2 = c := by
  refine ⟨?_, ?_, ?_, ?_, ?_, rfl, rfl, rfl, rfl⟩
  · intro h; simp [CoreImpl.GetDisplaysStatus, h]
  · intro h; simp [CoreImpl.GetDisplaysStatus, h]
  · unfold CoreImpl.CreateDisplayByType
    split <;> rfl
  · unfold CoreImpl.CreateDisplayById
    split
    · rfl
    · split <;> rfl
  · cases intf <;> rfl

/-- Witness for C8: a successful `GetDisplaysStatus` on the fresh core
replaces the cached snapshot with the returned one. -/
theorem c8_witness :
    (CoreImpl.GetDisplaysStatus envOk initialCore).2 =
      { initialCore with hw_displays_info_ := envOk.displays_status } :=
  (c8_cache_update_policy envOk initialCore DisplayType.kBuiltIn 0 false false
    none 0 0).1 rfl

/-- Claim C10: `DestroyDisplay` on any non-null handle returns
`kErrorNone` for every environment, in particular whatever error the
object's own `Deinit` reports: that result is discarded. -/
theorem c10_destroy_always_succeeds (env : Env) (c : CoreImpl)
    (db : DisplayBase) :
    CoreImpl.DestroyDisplay env c (some db) = (kErrorNone, c) := rfl

/-- Claim C2: in both overloads, once a display object has been
constructed (valid arguments, recognized type; for the id overload, an
id present in the cache), the outcome is determined by the object's own
`Init`: on failure the object's error is returned unchanged and the
output parameter is not written (the object is never exposed); on
success the object is written to the output parameter and the call
returns `kErrorNone`. -/
theorem c2_object_init_outcome (env : Env) (c : CoreImpl)
    (type : DisplayType) (display_id : Int) (info : HWDisplayInfo)
    (ht : type = DisplayType.kBuiltIn ∨ type = DisplayType.kPluggable ∨
      type = DisplayType.kVirtual)
    (hlook : c.hw_displays_info_.lookup display_id = some info)
    (hti : info.display_type = DisplayType.kBuiltIn ∨
      info.display_type = DisplayType.kPluggable ∨
      info.display_type = DisplayType.kVirtual) :
    ((CoreImpl.CreateDisplayByType env c type false false).1 =
      if displayInit env c (newDisplay type none) = kErrorNone then
        { error := kErrorNone, intf_written := some (newDisplay type none) }
      else
        { error := displayInit env c (newDisplay type none),
          intf_written := none }) ∧
    ((CoreImpl.CreateDisplayById env c display_id false false).1 =
      if displayInit env c (newDisplay info.display_type (some display_id)) =
          kErrorNone then
        { error := kErrorNone,
          intf_written := some (newDisplay info.display_type (some display_id)) }
      else
        { error := displayInit env c (newDisplay info.display_type (some display_id)),
          intf_written := none }) := by
  constructor
  · rcases ht with h | h | h <;> subst h <;>
      simp [CoreImpl.CreateDisplayByType, createForType, finishCreate_some]
  · rcases hti with h | h | h <;>
      simp [CoreImpl.CreateDisplayById, hlook, createForType, h, finishCreate_some]

/-- Witness for C2: on a fully initialized core whose display `Init`
succeeds, the typed overload returns success and writes the built-in
display object. -/
theorem c2_witness :
    (CoreImpl.CreateDisplayByType envOk coreReady DisplayType.kBuiltIn
        false false).1 =
      { error := kErrorNone,
        intf_written := some (newDisplay DisplayType.kBuiltIn none) } :=
  ((c2_object_init_outcome envOk coreReady DisplayType.kBuiltIn 0
      { display_type := DisplayType.kBuiltIn, is_connected := true }
      (Or.inl rfl) (by decide) (Or.inl rfl)).1).trans (by decide)

/-- Claim C3: when a `GetDisplaysStatus` call succeeds and its returned
snapshot associates `display_id` with `info`, a subsequent
`CreateDisplay(display_id, ...)` with non-null arguments resolves the id
(it does not take the unknown-id parameter-error branch): the result is
exactly that of the type dispatch on `info.display_type`, whatever that
type is. -/
theorem c3_refresh_then_lookup_resolves (env env2 : Env) (c : CoreImpl)
    (display_id : Int) (info : HWDisplayInfo)
    (hok : env.get_displays_status_result = kErrorNone)
    (hmem : env.displays_status.lookup display_id = some info) :
    (CoreImpl.CreateDisplayById env2 (CoreImpl.GetDisplaysStatus env c).2
        display_id false false).1 =
      createForType env2 (CoreImpl.GetDisplaysStatus env c).2
        (some display_id) info.display_type := by
  have hc : (CoreImpl.GetDisplaysStatus env c).2 =
      { c with hw_displays_info_ := env.displays_status } := by
    simp [CoreImpl.GetDisplaysStatus, hok]
  rw [hc]
  simp [CoreImpl.CreateDisplayById, hmem]

/-- Witness for C3: after a successful refresh on the fresh core, id 0
from the snapshot resolves to the built-in type dispatch. -/
theorem c3_witness :
    (CoreImpl.CreateDisplayById envOk
        (CoreImpl.GetDisplaysStatus envOk initialCore).2 0 false false).1 =
      createForType envOk (CoreImpl.GetDisplaysStatus envOk initialCore).2
        (some 0) DisplayType.kBuiltIn :=
  c3_refresh_then_lookup_resolves envOk envOk initialCore 0
    { display_type := DisplayType.kBuiltIn, is_connected := true } rfl (by decide)

/-- Claim C9: the `kErrorMemory` branch after the `switch` is
unreachable in both overloads: construction is total (C++ `new` never
yields null), so provided the display object's own `Init` does not itself
report `kErrorMemory`, neither overload ever returns `kErrorMemory`, and
every result is the parameter error, success, or an error of the
object's own `Init`. -/
theorem c9_memory_error_unreachable (env : Env) (c : CoreImpl)
    (type : DisplayType) (display_id : Int) (ehn ifn : Bool)
    (hno : ∀ d, env.display_init_result d ≠ kErrorMemory) :
    ((CoreImpl.CreateDisplayByType env c type ehn ifn).1.error ≠ kErrorMemory ∧
      ((CoreImpl.CreateDisplayByType env c type ehn ifn).1.error = kErrorParameters ∨
       (CoreImpl.CreateDisplayByType env c type ehn ifn).1.error = kErrorNone ∨
       ∃ db, (CoreImpl.CreateDisplayByType env c type ehn ifn).1.error =
         displayInit env c db)) ∧
    ((CoreImpl.CreateDisplayById env c display_id ehn ifn).1.error ≠ kErrorMemory ∧
      ((CoreImpl.CreateDisplayById env c display_id ehn ifn).1.error = kErrorParameters ∨
       (CoreImpl.CreateDisplayById env c display_id ehn ifn).1.error = kErrorNone ∨
       ∃ db, (CoreImpl.CreateDisplayById env c display_id ehn ifn).1.error =
         displayInit env c db)) := by
  constructor
  · unfold CoreImpl.CreateDisplayByType
    split
    · exact ⟨fun hh => DisplayError.noConfusion hh, Or.inl rfl⟩
    · exact ⟨createForType_no_memory env c none type hno,
        createForType_error_cases env c none type⟩
  · unfold CoreImpl.CreateDisplayById
    split
    · exact ⟨fun hh => DisplayError.noConfusion hh, Or.inl rfl⟩
    · split
      · exact ⟨fun hh => DisplayError.noConfusion hh, Or.inl rfl⟩
      · next info _ =>
        exact ⟨createForType_no_memory env c (some display_id) info.display_type hno,
          createForType_error_cases env c (some display_id) info.display_type⟩

/-- Witness for C9: creating a virtual display on the initialized core
does not return `kErrorMemory`. -/
theorem c9_witness :
    (CoreImpl.CreateDisplayByType envOk coreReady DisplayType.kVirtual
        false false).1.error ≠ kErrorMemory :=
  (c9_memory_error_unreachable envOk coreReady DisplayType.kVirtual 0 false false
    (fun _ h => DisplayError.noConfusion h)).1.1

/-- Claim C1: when the composition manager's `Init` fails while the
earlier hard steps succeed, `Init` destroys the hardware info provider
it created, returns exactly the composition manager's error, and from
the resulting uninitialized state neither `CreateDisplay` overload can
create a display under any environment: every call fails and never
writes the output parameter. -/
theorem c1_comp_mgr_failure_blocks_creation (env env2 : Env)
    (hext : extensionStepOk env)
    (hhw : env.hw_info_create_result = kErrorNone)
    (hres : env.get_hw_resource_result = kErrorNone)
    (hcm : env.comp_mgr_init_result ≠ kErrorNone) :
    (CoreImpl.Init env initialCore).1 = env.comp_mgr_init_result ∧
    (CoreImpl.Init env initialCore).2.hw_info_intf_valid = false ∧
    (∀ type ehn ifn,
      (CoreImpl.CreateDisplayByType env2 (CoreImpl.Init env initialCore).2
          type ehn ifn).1.error ≠ kErrorNone ∧
      (CoreImpl.CreateDisplayByType env2 (CoreImpl.Init env initialCore).2
          type ehn ifn).1.intf_written = none) ∧
    (∀ display_id ehn ifn,
      (CoreImpl.CreateDisplayById env2 (CoreImpl.Init env initialCore).2
          display_id ehn ifn).1.error ≠ kErrorNone ∧
      (CoreImpl.CreateDisplayById env2 (CoreImpl.Init env initialCore).2
          display_id ehn ifn).1.intf_written = none) := by
  have hinit : CoreImpl.Init env initialCore =
      (env.comp_mgr_init_result,
        { initialCore with extension_intf_present := env.extension_open }) := by
    cases hopen : env.extension_open with
    | false =>
      simp [CoreImpl.Init, hopen, initCore, hhw, hres, hcm, cleanupOnError,
        initialCore]
    | true =>
      rcases hext hopen with ⟨h1, h2, h3⟩
      simp [CoreImpl.Init, hopen, h1, h2, h3, initCore, hhw, hres, hcm,
        cleanupOnError, initialCore]
  rw [hinit]
  refine ⟨rfl, rfl, ?_, ?_⟩
  · intro type ehn ifn
    exact createDisplayByType_uninit env2 _ rfl type ehn ifn
  · intro display_id ehn ifn
    exact createDisplayById_uninit env2 _ rfl display_id ehn ifn

/-- Witness for C1: with the composition manager failing with a concrete
error, `Init` returns that error and a subsequent typed create fails. -/
theorem c1_witness :
    (CoreImpl.Init { envOk with comp_mgr_init_result := kErrorOther 7 }
        initialCore).1 = kErrorOther 7 ∧
    (CoreImpl.CreateDisplayByType envOk
        (CoreImpl.Init { envOk with comp_mgr_init_result := kErrorOther 7 }
          initialCore).2 DisplayType.kBuiltIn false false).1.error ≠
      kErrorNone ∧
    (CoreImpl.CreateDisplayById envOk
        (CoreImpl.Init { envOk with comp_mgr_init_result := kErrorOther 7 }
          initialCore).2 0 false false).1.error ≠ kErrorNone :=
  have h := c1_comp_mgr_failure_blocks_creation
    { envOk with comp_mgr_init_result := kErrorOther 7 } envOk
    (by decide) rfl rfl (by decide)
  ⟨h.1, (h.2.2.1 DisplayType.kBuiltIn false false).1, (h.2.2.2 0 false false).1⟩

/-- Claim C6: extension loading during `Init`: if the module does not
open, `Init` proceeds as if there were no extension step (non-fatal,
no extension interface recorded); if it opens but either entry point
fails to resolve, `Init` aborts immediately with `kErrorUndefined`; if
both resolve but the construct call fails, `Init` aborts with that
call's error. -/
theorem c6_extension_loading_policy (env : Env) (c : CoreImpl) :
    (env.extension_open = false → CoreImpl.Init env c = initCore env c) ∧
    (env.extension_open = true →
      (env.sym_create_ok && env.sym_destroy_ok) = false →
      CoreImpl.Init env c = (kErrorUndefined, c)) ∧
    (env.extension_open = true → env.sym_create_ok = true →
      env.sym_destroy_ok = true →
      env.create_extension_result ≠ kErrorNone →
      CoreImpl.Init env c = (env.create_extension_result, c)) := by
  refine ⟨?_, ?_, ?_⟩
  · intro h
    simp [CoreImpl.Init, h]
  · intro h hs
    simp [CoreImpl.Init, h, hs]
  · intro h h1 h2 hne
    simp [CoreImpl.Init, h, h1, h2, hne]

/-- Witness for C6: an absent module is non-fatal, an unresolved symbol
aborts with `kErrorUndefined`, and a failing construct call aborts with
its own error. -/
theorem c6_witness :
    CoreImpl.Init envOk initialCore = initCore envOk initialCore ∧
    CoreImpl.Init { envOk with extension_open := true, sym_create_ok := false }
        initialCore = (kErrorUndefined, initialCore) ∧
    CoreImpl.Init { envOk with extension_open := true, create_extension_result := kErrorOther 9 }
        initialCore = (kErrorOther 9, initialCore) :=
  ⟨(c6_extension_loading_policy envOk initialCore).1 rfl,
   (c6_extension_loading_policy
     { envOk with extension_open := true, sym_create_ok := false }
     initialCore).2.1 rfl rfl,
   (c6_extension_loading_policy
     { envOk with extension_open := true, create_extension_result := kErrorOther 9 }
     initialCore).2.2 rfl rfl rfl (by decide)⟩

/-- Claim C7: if the color manager's `Init` fails while every hard
dependency succeeds, `Init` still returns `kErrorNone`, and display
creation remains possible afterward: a typed create whose display
`Init` succeeds returns the object. -/
theorem c7_color_manager_failure_nonfatal (env env2 : Env)
    (hext : extensionStepOk env)
    (hhw : env.hw_info_create_result = kErrorNone)
    (hres : env.get_hw_resource_result = kErrorNone)
    (hcm : env.comp_mgr_init_result = kErrorNone)
    (hcolor : env.color_mgr_init_result ≠ kErrorNone)
    (hinit : env2.display_init_result (newDisplay DisplayType.kBuiltIn none) =
      kErrorNone) :
    (CoreImpl.Init env initialCore).1 = kErrorNone ∧
    (CoreImpl.CreateDisplayByType env2 (CoreImpl.Init env initialCore).2
        DisplayType.kBuiltIn false false).1 =
      { error := kErrorNone,
        intf_written := some (newDisplay DisplayType.kBuiltIn none) } := by
  have hstate : CoreImpl.Init env initialCore =
      (kErrorNone,
        { hw_info_intf_valid := true
          comp_mgr_initialized := true
          extension_intf_present := env.extension_open
          hw_displays_info_ :=
            if env.get_displays_status_result = kErrorNone then
              env.displays_status
            else [] }) := by
    cases hopen : env.extension_open with
    | false =>
      simp [CoreImpl.Init, hopen, initCore, hhw, hres, hcm, initialCore]
      split <;> rfl
    | true =>
      rcases hext hopen with ⟨h1, h2, h3⟩
      simp [CoreImpl.Init, hopen, h1, h2, h3, initCore, hhw, hres, hcm,
        initialCore]
      split <;> rfl
  rw [hstate]
  refine ⟨rfl, ?_⟩
  simp [CoreImpl.CreateDisplayByType, createForType, finishCreate_some,
    displayInit, hinit]

/-- Witness for C7: with only the color manager failing, `Init` succeeds
and a built-in display is created afterward. -/
theorem c7_witness :
    (CoreImpl.Init { envOk with color_mgr_init_result := kErrorOther 5 }
        initialCore).1 = kErrorNone ∧
    (CoreImpl.CreateDisplayByType envOk
        (CoreImpl.Init { envOk with color_mgr_init_result := kErrorOther 5 }
          initialCore).2 DisplayType.kBuiltIn false false).1 =
      { error := kErrorNone,
        intf_written := some (newDisplay DisplayType.kBuiltIn none) } :=
  c7_color_manager_failure_nonfatal
    { envOk with color_mgr_init_result := kErrorOther 5 } envOk
    (by decide) rfl rfl rfl (by decide) rfl

end SDM
